import Mathlib

/-!
Verification development for the health-tracker web application (`app.py`).

The Python source is shallowly embedded: dates (`datetime.date`) become a
`Date` structure over `Nat` fields with the proleptic Gregorian calendar
(the calendar `datetime` implements); `timedelta` day arithmetic becomes
iterated successor/predecessor on dates; SQL queries over per-user tables
become list filters, maps and sums; SQLite `REAL` and Python `float`
arithmetic is modelled over `Rat` (exact rationals); fallible operations
(`strptime`, `int(...)`, `float(...)`) return `Option`.
-/

namespace HealthTracker

/-- Gregorian leap-year test, as implemented by Python `datetime`. -/
def isLeap (y : Nat) : Bool :=
  (y % 4 == 0 && y % 100 != 0) || (y % 400 == 0)

/-- Number of days in month `m` of year `y` (Python `calendar.monthrange` /
`datetime` internals). Returns 0 for an out-of-range month. -/
def daysInMonth (y : Nat) (m : Nat) : Nat :=
  match m with
  | 1 => 31
  | 2 => if isLeap y then 29 else 28
  | 3 => 31
  | 4 => 30
  | 5 => 31
  | 6 => 30
  | 7 => 31
  | 8 => 31
  | 9 => 30
  | 10 => 31
  | 11 => 30
  | 12 => 31
  | _ => 0

/-- Embedding of Python `datetime.date`: a year/month/day triple. -/
structure Date where
  year : Nat
  month : Nat
  day : Nat
deriving DecidableEq, Repr

/-- A `Date` value that Python `datetime.date` would accept
(year at least 1, month 1..12, day within the month). -/
def Date.Valid (d : Date) : Prop :=
  1 ≤ d.year ∧ 1 ≤ d.month ∧ d.month ≤ 12 ∧ 1 ≤ d.day ∧ d.day ≤ daysInMonth d.year d.month

instance (d : Date) : Decidable d.Valid := by
  unfold Date.Valid
  exact inferInstance

/-- Days in all years strictly before year `y` (CPython `_days_before_year`). -/
def daysBeforeYear (y : Nat) : Nat :=
  365 * (y - 1) + (y - 1) / 4 + (y - 1) / 400 - (y - 1) / 100

/-- Days in year `y` strictly before month `m`
(CPython `_days_before_month`). -/
def daysBeforeMonth (y : Nat) (m : Nat) : Nat :=
  (match m with
   | 1 => 0
   | 2 => 31
   | 3 => 59
   | 4 => 90
   | 5 => 120
   | 6 => 151
   | 7 => 181
   | 8 => 212
   | 9 => 243
   | 10 => 273
   | 11 => 304
   | 12 => 334
   | _ => 0) +
  (if 3 ≤ m then (if isLeap y then 1 else 0) else 0)

/-- Python `date.toordinal()`: day 1 is 0001-01-01. -/
def Date.toOrd (d : Date) : Nat :=
  daysBeforeYear d.year + daysBeforeMonth d.year d.month + d.day

/-- Python `date.weekday()`: Monday is 0, Sunday is 6
(0001-01-01 was a Monday). -/
def Date.weekday (d : Date) : Nat :=
  (d.toOrd - 1) % 7

/-- The calendar successor of a date (`d + timedelta(days=1)`). -/
def Date.succD (d : Date) : Date :=
  if d.day < daysInMonth d.year d.month then ⟨d.year, d.month, d.day + 1⟩
  else if d.month < 12 then ⟨d.year, d.month + 1, 1⟩
  else ⟨d.year + 1, 1, 1⟩

/-- The calendar predecessor of a date (`d - timedelta(days=1)`). -/
def Date.predD (d : Date) : Date :=
  if 1 < d.day then ⟨d.year, d.month, d.day - 1⟩
  else if 1 < d.month then ⟨d.year, d.month - 1, daysInMonth d.year (d.month - 1)⟩
  else ⟨d.year - 1, 12, 31⟩

/-- `d + timedelta(days=n)` for `n ≥ 0`. -/
def Date.addDays (d : Date) : Nat → Date
  | 0 => d
  | n + 1 => (d.addDays n).succD

/-- `d - timedelta(days=n)` for `n ≥ 0`. -/
def Date.subDays (d : Date) : Nat → Date
  | 0 => d
  | n + 1 => (d.subDays n).predD

/-- Python date comparison `a <= b` (lexicographic on year, month, day). -/
def Date.le (a b : Date) : Prop :=
  a.year < b.year ∨
    (a.year = b.year ∧ (a.month < b.month ∨ (a.month = b.month ∧ a.day ≤ b.day)))

/-- Python date comparison `a < b`. -/
def Date.lt (a b : Date) : Prop :=
  a.year < b.year ∨
    (a.year = b.year ∧ (a.month < b.month ∨ (a.month = b.month ∧ a.day < b.day)))

instance (a b : Date) : Decidable (Date.le a b) := by
  unfold Date.le
  exact inferInstance

instance (a b : Date) : Decidable (Date.lt a b) := by
  unfold Date.lt
  exact inferInstance

/- ### Calendar lemmas -/

lemma isLeap_iff (y : Nat) : isLeap y = true ↔ ((y % 4 = 0 ∧ ¬ y % 100 = 0) ∨ y % 400 = 0) := by
  simp [isLeap]

lemma daysBeforeYear_succ (y : Nat) (hy : 1 ≤ y) :
    daysBeforeYear (y + 1) = daysBeforeYear y + 365 + (if isLeap y then 1 else 0) := by
  unfold daysBeforeYear
  cases h : isLeap y with
  | false =>
    have hp : ¬ ((y % 4 = 0 ∧ ¬ y % 100 = 0) ∨ y % 400 = 0) := by
      rw [← isLeap_iff, h]
      simp
    push_neg at hp
    simp only [Bool.false_eq_true, if_false]
    omega
  | true =>
    have hp : (y % 4 = 0 ∧ ¬ y % 100 = 0) ∨ y % 400 = 0 := (isLeap_iff y).mp h
    rw [if_pos rfl]
    rcases hp with ⟨h4, h100⟩ | h400
    · omega
    · have h4 : y % 4 = 0 := by omega
      have h100 : y % 100 = 0 := by omega
      omega

lemma daysBeforeYear_mono {a b : Nat} (ha : 1 ≤ a) (hab : a ≤ b) :
    daysBeforeYear a ≤ daysBeforeYear b := by
  induction b, hab using Nat.le_induction with
  | base => exact le_refl _
  | succ n hn ih =>
    have h := daysBeforeYear_succ n (le_trans ha hn)
    omega

lemma daysBeforeYear_one : daysBeforeYear 1 = 0 := by
  unfold daysBeforeYear
  simp

lemma daysInMonth_pos (y m : Nat) (h1 : 1 ≤ m) (h2 : m ≤ 12) : 1 ≤ daysInMonth y m := by
  interval_cases m <;> simp [daysInMonth] <;> split <;> omega

lemma daysBeforeMonth_step (y m : Nat) (h1 : 1 ≤ m) (h2 : m ≤ 11) :
    daysBeforeMonth y (m + 1) = daysBeforeMonth y m + daysInMonth y m := by
  interval_cases m <;>
    simp [daysBeforeMonth, daysInMonth] <;>
    cases h : isLeap y <;> simp [h]

lemma daysBeforeMonth_add_le (y m : Nat) (h1 : 1 ≤ m) (h2 : m ≤ 12) :
    daysBeforeMonth y m + daysInMonth y m ≤ 365 + (if isLeap y then 1 else 0) := by
  interval_cases m <;>
    simp [daysBeforeMonth, daysInMonth] <;>
    cases h : isLeap y <;> simp [h]

lemma daysBeforeMonth_mono (y : Nat) {m n : Nat} (h1 : 1 ≤ m) (hmn : m ≤ n) (h2 : n ≤ 12) :
    daysBeforeMonth y m ≤ daysBeforeMonth y n := by
  induction n, hmn using Nat.le_induction with
  | base => exact le_refl _
  | succ k hk ih =>
    have hs := daysBeforeMonth_step y k (le_trans h1 hk) (by omega)
    have := ih (by omega)
    omega

lemma daysBeforeMonth_twelve (y : Nat) :
    daysBeforeMonth y 12 = 334 + (if isLeap y then 1 else 0) := by
  simp [daysBeforeMonth]

lemma daysBeforeMonth_one (y : Nat) : daysBeforeMonth y 1 = 0 := by
  simp [daysBeforeMonth]

lemma toOrd_pos (d : Date) (h : d.Valid) : 1 ≤ d.toOrd := by
  obtain ⟨_, _, _, hd, _⟩ := h
  unfold Date.toOrd
  omega

lemma toOrd_bounds (d : Date) (h : d.Valid) :
    daysBeforeYear d.year + 1 ≤ d.toOrd ∧ d.toOrd ≤ daysBeforeYear (d.year + 1) := by
  obtain ⟨hy, hm1, hm2, hd1, hd2⟩ := h
  have hub := daysBeforeMonth_add_le d.year d.month hm1 hm2
  have hstep := daysBeforeYear_succ d.year hy
  unfold Date.toOrd
  omega

lemma succD_spec (d : Date) (h : d.Valid) :
    (d.succD).Valid ∧ (d.succD).toOrd = d.toOrd + 1 := by
  obtain ⟨hy, hm1, hm2, hd1, hd2⟩ := h
  unfold Date.succD
  split
  · rename_i hday
    refine ⟨⟨hy, hm1, hm2, ?_, ?_⟩, ?_⟩
    · show 1 ≤ d.day + 1
      omega
    · show d.day + 1 ≤ daysInMonth d.year d.month
      omega
    · show daysBeforeYear d.year + daysBeforeMonth d.year d.month + (d.day + 1) =
        daysBeforeYear d.year + daysBeforeMonth d.year d.month + d.day + 1
      omega
  · rename_i hday
    split
    · rename_i hmon
      have hstep := daysBeforeMonth_step d.year d.month hm1 (by omega)
      have hpos := daysInMonth_pos d.year (d.month + 1) (by omega) (by omega)
      refine ⟨⟨hy, ?_, ?_, ?_, ?_⟩, ?_⟩
      · show 1 ≤ d.month + 1
        omega
      · show d.month + 1 ≤ 12
        omega
      · show 1 ≤ 1
        omega
      · show 1 ≤ daysInMonth d.year (d.month + 1)
        exact hpos
      · show daysBeforeYear d.year + daysBeforeMonth d.year (d.month + 1) + 1 =
          daysBeforeYear d.year + daysBeforeMonth d.year d.month + d.day + 1
        omega
    · rename_i hmon
      have hm12 : d.month = 12 := by omega
      have hdim : daysInMonth d.year d.month = 31 := by
        rw [hm12]
        simp [daysInMonth]
      have hd31 : d.day = 31 := by omega
      have hstep := daysBeforeYear_succ d.year hy
      have h12 := daysBeforeMonth_twelve d.year
      have h1 := daysBeforeMonth_one (d.year + 1)
      refine ⟨⟨?_, ?_, ?_, ?_, ?_⟩, ?_⟩
      · show 1 ≤ d.year + 1
        omega
      · show 1 ≤ 1
        omega
      · show (1 : Nat) ≤ 12
        omega
      · show 1 ≤ 1
        omega
      · show (1 : Nat) ≤ 31
        omega
      · show daysBeforeYear (d.year + 1) + daysBeforeMonth (d.year + 1) 1 + 1 =
          daysBeforeYear d.year + daysBeforeMonth d.year d.month + d.day + 1
        rw [hm12, hd31, h1, h12, hstep]
        omega

lemma predD_spec (d : Date) (h : d.Valid) (h2 : 2 ≤ d.toOrd) :
    (d.predD).Valid ∧ (d.predD).toOrd + 1 = d.toOrd := by
  obtain ⟨hy, hm1, hm2, hd1, hd2⟩ := h
  unfold Date.predD
  split
  · rename_i hday
    refine ⟨⟨hy, hm1, hm2, ?_, ?_⟩, ?_⟩
    · show 1 ≤ d.day - 1
      omega
    · show d.day - 1 ≤ daysInMonth d.year d.month
      omega
    · show daysBeforeYear d.year + daysBeforeMonth d.year d.month + (d.day - 1) + 1 =
        daysBeforeYear d.year + daysBeforeMonth d.year d.month + d.day
      omega
  · rename_i hday
    have hd1' : d.day = 1 := by omega
    split
    · rename_i hmon
      have hstep := daysBeforeMonth_step d.year (d.month - 1) (by omega) (by omega)
      have hmm : d.month - 1 + 1 = d.month := by omega
      rw [hmm] at hstep
      have hpos := daysInMonth_pos d.year (d.month - 1) (by omega) (by omega)
      refine ⟨⟨hy, ?_, ?_, ?_, ?_⟩, ?_⟩
      · show 1 ≤ d.month - 1
        omega
      · show d.month - 1 ≤ 12
        omega
      · show 1 ≤ daysInMonth d.year (d.month - 1)
        exact hpos
      · show daysInMonth d.year (d.month - 1) ≤ daysInMonth d.year (d.month - 1)
        omega
      · show daysBeforeYear d.year + daysBeforeMonth d.year (d.month - 1) +
            daysInMonth d.year (d.month - 1) + 1 =
          daysBeforeYear d.year + daysBeforeMonth d.year d.month + d.day
        omega
    · rename_i hmon
      have hm1' : d.month = 1 := by omega
      have hy2 : 2 ≤ d.year := by
        by_contra hc
        have hy1 : d.year = 1 := by omega
        have hord : d.toOrd = 1 := by
          show daysBeforeYear d.year + daysBeforeMonth d.year d.month + d.day = 1
          rw [hy1, hm1', hd1', daysBeforeYear_one, daysBeforeMonth_one]
        omega
      have hstep := daysBeforeYear_succ (d.year - 1) (by omega)
      have hyy : d.year - 1 + 1 = d.year := by omega
      rw [hyy] at hstep
      have h12 := daysBeforeMonth_twelve (d.year - 1)
      refine ⟨⟨?_, ?_, ?_, ?_, ?_⟩, ?_⟩
      · show 1 ≤ d.year - 1
        omega
      · show (1 : Nat) ≤ 12
        omega
      · show (12 : Nat) ≤ 12
        omega
      · show (1 : Nat) ≤ 31
        omega
      · show (31 : Nat) ≤ 31
        omega
      · show daysBeforeYear (d.year - 1) + daysBeforeMonth (d.year - 1) 12 + 31 + 1 =
          daysBeforeYear d.year + daysBeforeMonth d.year d.month + d.day
        rw [hm1', hd1', daysBeforeMonth_one, h12, hstep]
        omega

lemma addDays_spec (d : Date) (h : d.Valid) (n : Nat) :
    (d.addDays n).Valid ∧ (d.addDays n).toOrd = d.toOrd + n := by
  induction n with
  | zero => exact ⟨h, rfl⟩
  | succ k ih =>
    have hs := succD_spec (d.addDays k) ih.1
    unfold Date.addDays
    exact ⟨hs.1, by omega⟩

lemma subDays_spec (d : Date) (h : d.Valid) (n : Nat) (hn : n < d.toOrd) :
    (d.subDays n).Valid ∧ (d.subDays n).toOrd = d.toOrd - n := by
  induction n with
  | zero => exact ⟨h, rfl⟩
  | succ k ih =>
    have ihk := ih (by omega)
    have hs := predD_spec (d.subDays k) ihk.1 (by omega)
    unfold Date.subDays
    exact ⟨hs.1, by omega⟩

lemma toOrd_lt_of_lt (a b : Date) (ha : a.Valid) (hb : b.Valid) (h : Date.lt a b) :
    a.toOrd < b.toOrd := by
  obtain ⟨hay, ham1, ham2, had1, had2⟩ := ha
  obtain ⟨hby, hbm1, hbm2, hbd1, hbd2⟩ := hb
  rcases h with hyy | ⟨hyy, hmm | ⟨hmm, hdd⟩⟩
  · have hub := toOrd_bounds a ⟨hay, ham1, ham2, had1, had2⟩
    have hlb := toOrd_bounds b ⟨hby, hbm1, hbm2, hbd1, hbd2⟩
    have hmono := daysBeforeYear_mono (a := a.year + 1) (b := b.year) (by omega) (by omega)
    omega
  · have hstep := daysBeforeMonth_step a.year a.month ham1 (by omega)
    have hmono := daysBeforeMonth_mono a.year (m := a.month + 1) (n := b.month)
      (by omega) (by omega) hbm2
    unfold Date.toOrd
    rw [← hyy] at hbd2 ⊢
    omega
  · unfold Date.toOrd
    rw [← hyy, ← hmm]
    omega

lemma le_iff_toOrd (a b : Date) (ha : a.Valid) (hb : b.Valid) :
    Date.le a b ↔ a.toOrd ≤ b.toOrd := by
  constructor
  · intro h
    by_cases heq : a = b
    · rw [heq]
    · have hlt : Date.lt a b := by
        unfold Date.le at h
        unfold Date.lt
        have hne : ¬ (a.year = b.year ∧ a.month = b.month ∧ a.day = b.day) := by
          intro ⟨h1, h2, h3⟩
          apply heq
          cases a
          cases b
          simp_all
        omega
      exact le_of_lt (toOrd_lt_of_lt a b ha hb hlt)
  · intro h
    by_contra hc
    have hlt : Date.lt b a := by
      unfold Date.le at hc
      unfold Date.lt
      omega
    have := toOrd_lt_of_lt b a hb ha hlt
    omega

/- ### Strings, formatting and parsing -/

/-- Zero-padded decimal rendering of a natural number to width `w`
(as SQLite strftime and Python strftime produce). -/
def pad (w n : Nat) : String :=
  let s := toString n
  String.mk (List.replicate (w - s.length) ('0')) ++ s

/-- `fmt_day` from app.py: `d.strftime("%Y-%m-%d")`. -/
def fmt_day (d : Date) : String :=
  pad 4 d.year ++ "-" ++ pad 2 d.month ++ "-" ++ pad 2 d.day

/-- SQLite `strftime('%Y-%m', date)`. -/
def strftime_month (d : Date) : String :=
  pad 4 d.year ++ "-" ++ pad 2 d.month

/-- SQLite `%W`: week of the year with Monday as first day; days before the
first Monday of the year fall in week 0. -/
def weekOfYear (d : Date) : Nat :=
  (daysBeforeMonth d.year d.month + d.day + 6 - d.weekday) / 7

/-- SQLite `strftime('%Y-W%W', date)`. -/
def strftime_week (d : Date) : String :=
  pad 4 d.year ++ "-W" ++ pad 2 (weekOfYear d)

/-- Python truthiness of an optional form string: `None` and `""` are falsy. -/
def truthyS : Option String → Bool
  | none => false
  | some s => !(s == "")

/-- Split a character list on a separator character (used to embed the
field structure `strptime` imposes on `"%Y-%m-%d"` input). -/
def splitOnChar (c : Char) : List Char → List (List Char)
  | [] => [[]]
  | a :: as =>
    match splitOnChar c as with
    | [] => [[]]
    | g :: gs => if a = c then [] :: g :: gs else (a :: g) :: gs

def allDigits (l : List Char) : Bool :=
  !l.isEmpty && l.all (fun c => c.isDigit)

def natOfDigits (l : List Char) : Nat :=
  l.foldl (fun a c => a * 10 + (c.toNat - 48)) 0

/-- `parse_date` from app.py: `datetime.strptime(s, "%Y-%m-%d").date()`,
returning `none` where Python raises `ValueError`. CPython strptime
matches `%Y` against exactly four digits and `%m`/`%d` against one or two
digits, then the `date` constructor enforces `1 <= year`, `1 <= month <= 12`
and `1 <= day <= days-in-month`. -/
def parse_date (s : String) : Option Date :=
  match splitOnChar ('-') s.toList with
  | [ys, ms, ds] =>
    if ys.length = 4 && allDigits ys && allDigits ms && ms.length ≤ 2 &&
        allDigits ds && ds.length ≤ 2 then
      let y := natOfDigits ys
      let m := natOfDigits ms
      let d := natOfDigits ds
      if 1 ≤ y && 1 ≤ m && m ≤ 12 && 1 ≤ d && d ≤ daysInMonth y m then
        some ⟨y, m, d⟩
      else none
    else none
  | _ => none

/-- `start_end_from_range` from app.py. `today` stands for `date.today()`;
the result is `none` when Python would raise (a `parse_date` failure), and
`some (start?, end?)` otherwise, with `(none, none)` as the unbounded
sentinel the code returns for "all" and unrecognised keys. -/
def start_end_from_range (range_key : String) (today : Date)
    (start_str end_str : Option String) : Option (Option Date × Option Date) :=
  if range_key = "today" then some (some today, some today)
  else if range_key = "week" then
    some (some (today.subDays today.weekday),
      some ((today.subDays today.weekday).addDays 6))
  else if range_key = "month" then
    some (some (⟨today.year, today.month, 1⟩ : Date),
      some (Date.predD (if today.month = 12 then ⟨today.year + 1, 1, 1⟩
        else ⟨today.year, today.month + 1, 1⟩)))
  else if range_key = "custom" ∧ truthyS start_str = true ∧ truthyS end_str = true then
    match parse_date (start_str.getD ""), parse_date (end_str.getD "") with
    | some ds, some de => some (some ds, some de)
    | _, _ => none
  else some (none, none)

lemma ser_week_eq (today : Date) (ss es : Option String) :
    start_end_from_range "week" today ss es =
      some (some (today.subDays today.weekday),
        some ((today.subDays today.weekday).addDays 6)) := rfl

lemma ser_month_eq (today : Date) (ss es : Option String) :
    start_end_from_range "month" today ss es =
      some (some (⟨today.year, today.month, 1⟩ : Date),
        some (Date.predD (if today.month = 12 then ⟨today.year + 1, 1, 1⟩
          else ⟨today.year, today.month + 1, 1⟩))) := rfl

lemma le_mk_left (y m dd : Nat) (d : Date) :
    Date.le ⟨y, m, dd⟩ d ↔
      (y < d.year ∨ (y = d.year ∧ (m < d.month ∨ (m = d.month ∧ dd ≤ d.day)))) := Iff.rfl

lemma le_mk_right (y m dd : Nat) (d : Date) :
    Date.le d ⟨y, m, dd⟩ ↔
      (d.year < y ∨ (d.year = y ∧ (d.month < m ∨ (d.month = m ∧ d.day ≤ dd)))) := Iff.rfl

/-- Claim C3: for every (valid) current date, the resolved "week" range is a
pair (start, end) where start is a Monday (`weekday = 0`), start ≤ today ≤
end, and end − start = 6 days, so the range spans exactly 7 days. -/
theorem week_range_monday_span (today s e : Date) (hv : today.Valid)
    (h : start_end_from_range "week" today none none = some (some s, some e)) :
    s.weekday = 0 ∧ Date.le s today ∧ Date.le today e ∧ e.toOrd = s.toOrd + 6 := by
  rw [ser_week_eq] at h
  simp only [Option.some.injEq, Prod.mk.injEq] at h
  obtain ⟨h1, h2⟩ := h
  subst h1
  subst h2
  have hord1 : 1 ≤ today.toOrd := toOrd_pos today hv
  have hwdef : today.weekday = (today.toOrd - 1) % 7 := rfl
  have hwlt : today.weekday < today.toOrd := by omega
  have hw6 : today.weekday ≤ 6 := by omega
  have hsub := subDays_spec today hv today.weekday hwlt
  have hadd := addDays_spec (today.subDays today.weekday) hsub.1 6
  refine ⟨?_, ?_, ?_, ?_⟩
  · show ((today.subDays today.weekday).toOrd - 1) % 7 = 0
    rw [hsub.2]
    omega
  · exact (le_iff_toOrd _ today hsub.1 hv).mpr (by omega)
  · exact (le_iff_toOrd today _ hv hadd.1).mpr (by omega)
  · omega

/-- Witness for `week_range_monday_span` at today = 2024-10-12 (a Saturday):
the resolved week is 2024-10-07 (Monday) to 2024-10-13. -/
theorem week_range_monday_span_witness :
    (⟨2024, 10, 7⟩ : Date).weekday = 0 ∧
    Date.le ⟨2024, 10, 7⟩ ⟨2024, 10, 12⟩ ∧
    Date.le ⟨2024, 10, 12⟩ ⟨2024, 10, 13⟩ ∧
    (⟨2024, 10, 13⟩ : Date).toOrd = (⟨2024, 10, 7⟩ : Date).toOrd + 6 :=
  week_range_monday_span ⟨2024, 10, 12⟩ ⟨2024, 10, 7⟩ ⟨2024, 10, 13⟩
    (by decide) (by decide)

/-- Claim C4: for every (valid) current date, including December dates, the
resolved "month" range starts at the first day of the current calendar month
and ends at its last day, and a valid date lies between the two bounds
exactly when it belongs to that calendar month. -/
theorem month_range_calendar_month (today s e : Date) (hv : today.Valid)
    (h : start_end_from_range "month" today none none = some (some s, some e)) :
    s = ⟨today.year, today.month, 1⟩ ∧
    e = ⟨today.year, today.month, daysInMonth today.year today.month⟩ ∧
    (∀ d : Date, d.Valid →
      (Date.le s d ∧ Date.le d e ↔ d.year = today.year ∧ d.month = today.month)) := by
  obtain ⟨hy, hm1, hm2, hd1, hd2⟩ := hv
  rw [ser_month_eq] at h
  simp only [Option.some.injEq, Prod.mk.injEq] at h
  obtain ⟨h1, h2⟩ := h
  have he : e = ⟨today.year, today.month, daysInMonth today.year today.month⟩ := by
    by_cases hm : today.month = 12
    · rw [if_pos hm] at h2
      unfold Date.predD at h2
      simp at h2
      rw [← h2, hm]
      simp [daysInMonth]
    · rw [if_neg hm] at h2
      unfold Date.predD at h2
      simp at h2
      rw [if_pos (show 0 < today.month by omega)] at h2
      exact h2.symm
  refine ⟨h1.symm, he, ?_⟩
  intro d hd
  obtain ⟨hdy, hdm1, hdm2, hdd1, hdd2⟩ := hd
  rw [← h1, he, le_mk_left, le_mk_right]
  constructor
  · rintro ⟨hl, hr⟩
    have hyy : d.year = today.year := by omega
    have hmm : d.month = today.month := by omega
    exact ⟨hyy, hmm⟩
  · rintro ⟨hyy, hmm⟩
    rw [hyy, hmm] at hdd2
    omega

/-- Witness for `month_range_calendar_month` at a December date: the month
range for 2024-12-15 is 2024-12-01 to 2024-12-31, and 2024-12-31 is inside
the range while 2025-01-01 is not. -/
theorem month_range_calendar_month_witness :
    ((⟨2024, 12, 1⟩ : Date) = ⟨(⟨2024, 12, 15⟩ : Date).year, (⟨2024, 12, 15⟩ : Date).month, 1⟩ ∧
     (⟨2024, 12, 31⟩ : Date) = ⟨(⟨2024, 12, 15⟩ : Date).year, (⟨2024, 12, 15⟩ : Date).month,
        daysInMonth (⟨2024, 12, 15⟩ : Date).year (⟨2024, 12, 15⟩ : Date).month⟩ ∧
     (∀ d : Date, d.Valid →
       (Date.le ⟨2024, 12, 1⟩ d ∧ Date.le d ⟨2024, 12, 31⟩ ↔
         d.year = (⟨2024, 12, 15⟩ : Date).year ∧ d.month = (⟨2024, 12, 15⟩ : Date).month))) :=
  month_range_calendar_month ⟨2024, 12, 15⟩ ⟨2024, 12, 1⟩ ⟨2024, 12, 31⟩
    (by decide) (by decide)

/-- Claim C5 counterexample: "bad" and "" are not valid ISO `YYYY-MM-DD`
date strings, yet the resolver does not fail with a parse error: because the
empty end string is falsy, the `custom` guard falls through and the resolver
returns the unbounded sentinel pair. -/
theorem custom_range_invalid_no_error_cex :
    start_end_from_range "custom" ⟨2024, 5, 17⟩ (some "bad") (some "") =
      some (none, none) := by decide

/-- Claim C5 (amended): when both custom bound strings are non-empty and
either one is rejected by the `%Y-%m-%d` parser, the resolver fails with a
parse error rather than returning a date pair. -/
theorem custom_range_parse_error (today : Date) (s e : String)
    (hs : s ≠ "") (he : e ≠ "")
    (h : parse_date s = none ∨ parse_date e = none) :
    start_end_from_range "custom" today (some s) (some e) = none := by
  unfold start_end_from_range
  rw [if_neg (by decide), if_neg (by decide), if_neg (by decide),
    if_pos ⟨rfl, by simp [truthyS, hs], by simp [truthyS, he]⟩]
  simp only [Option.getD_some]
  cases hps : parse_date s with
  | none =>
    cases hpe : parse_date e with
    | none => rfl
    | some de => rfl
  | some ds =>
    cases hpe : parse_date e with
    | none => rfl
    | some de =>
      exfalso
      rcases h with h | h
      · rw [hps] at h
        exact Option.noConfusion h
      · rw [hpe] at h
        exact Option.noConfusion h

/-- Witness for `custom_range_parse_error`: month 13 is rejected. -/
theorem custom_range_parse_error_witness :
    start_end_from_range "custom" ⟨2024, 1, 1⟩ (some "2024-13-01") (some "2024-01-02") =
      none :=
  custom_range_parse_error ⟨2024, 1, 1⟩ "2024-13-01" "2024-01-02"
    (by decide) (by decide) (Or.inl (by decide))

/-- Claim C10: when either custom bound string is missing or empty, the
resolver does not fail but returns the unbounded sentinel `(None, None)`,
the same result as range key "all". -/
theorem custom_range_empty_unbounded (today : Date) (ss es : Option String)
    (h : truthyS ss = false ∨ truthyS es = false) :
    start_end_from_range "custom" today ss es = some (none, none) ∧
    start_end_from_range "all" today ss es = some (none, none) := by
  constructor
  · unfold start_end_from_range
    rw [if_neg (by decide), if_neg (by decide), if_neg (by decide), if_neg ?_]
    rintro ⟨-, h1, h2⟩
    rcases h with h | h
    · rw [h1] at h
      exact Bool.noConfusion h
    · rw [h2] at h
      exact Bool.noConfusion h
  · unfold start_end_from_range
    rw [if_neg (by decide), if_neg (by decide), if_neg (by decide), if_neg ?_]
    rintro ⟨hc, -⟩
    exact absurd hc (by decide)

/-- Witness for `custom_range_empty_unbounded`: a missing end string. -/
theorem custom_range_empty_unbounded_witness :
    start_end_from_range "custom" ⟨2024, 5, 17⟩ (some "2024-01-01") none =
      some (none, none) ∧
    start_end_from_range "all" ⟨2024, 5, 17⟩ (some "2024-01-01") none =
      some (none, none) :=
  custom_range_empty_unbounded ⟨2024, 5, 17⟩ (some "2024-01-01") none (Or.inr rfl)

/- ### Numeric model: Python float / SQLite REAL as exact rationals -/

/-- Round a rational to the nearest integer, ties to even
(the rounding Python `round` implements). -/
def roundHalfEven (q : Rat) : Int :=
  let f := q.floor
  let r := q - (f : Rat)
  if r < 1 / 2 then f
  else if 1 / 2 < r then f + 1
  else if f % 2 = 0 then f
  else f + 1

/-- Python `round(q, 2)`. -/
def round2 (q : Rat) : Rat :=
  (roundHalfEven (q * 100) : Rat) / 100

/- ### Aggregation (`aggregate_query`) -/

/-- A row of a per-user log table as `aggregate_query` sees it: the owning
user, the date column (as the date SQLite `DATE()` extracts) and the chosen
numeric value column. -/
structure LogRow where
  user_id : Nat
  ldate : Date
  value : Rat
deriving DecidableEq, Repr

/-- Byte-order string comparison, as SQLite compares TEXT values in
`BETWEEN` and `ORDER BY`. -/
def strLeList : List Char → List Char → Bool
  | [], _ => true
  | _ :: _, [] => false
  | a :: as, b :: bs =>
    if a.toNat < b.toNat then true
    else if b.toNat < a.toNat then false
    else strLeList as bs

def strLeB (a b : String) : Bool :=
  strLeList a.toList b.toList

/-- The group key `aggregate_query` selects from `group_by`. -/
def groupKey (group_by : String) (d : Date) : String :=
  if group_by = "month" then strftime_month d
  else if group_by = "week" then strftime_week d
  else fmt_day d

/-- The WHERE clause of `aggregate_query`: the rows of `uid`, further
restricted by `DATE(date_col) BETWEEN start AND end` when both bounds are
present (text comparison on the formatted dates, as SQLite performs it). -/
def filteredRows (uid : Nat) (rows : List LogRow)
    (start? end? : Option Date) : List LogRow :=
  rows.filter (fun r =>
    r.user_id == uid &&
      (match start?, end? with
       | some s, some e =>
         strLeB (fmt_day s) (fmt_day r.ldate) && strLeB (fmt_day r.ldate) (fmt_day e)
       | _, _ => true))

/-- `aggregate_query` from app.py:
`SELECT grp AS g, COALESCE(SUM(value),0) AS v FROM table WHERE user_id=?
 [AND DATE(col) BETWEEN ? AND ?] GROUP BY g ORDER BY g`,
returning the parallel label/value lists. -/
def aggregate_query (uid : Nat) (rows : List LogRow)
    (start? end? : Option Date) (group_by : String) : List String × List Rat :=
  let filtered := filteredRows uid rows start? end?
  let keys := List.insertionSort (fun a b => strLeB a b = true)
    ((filtered.map (fun r => groupKey group_by r.ldate)).dedup)
  (keys,
   keys.map (fun k =>
     ((filtered.filter (fun r => groupKey group_by r.ldate == k)).map
       (fun r => r.value)).sum))

lemma aggregate_query_fst (uid : Nat) (rows : List LogRow)
    (start? end? : Option Date) (gb : String) :
    (aggregate_query uid rows start? end? gb).1 =
      List.insertionSort (fun a b => strLeB a b = true)
        (((filteredRows uid rows start? end?).map
          (fun r => groupKey gb r.ldate)).dedup) := rfl

lemma aggregate_query_snd (uid : Nat) (rows : List LogRow)
    (start? end? : Option Date) (gb : String) :
    (aggregate_query uid rows start? end? gb).2 =
      (aggregate_query uid rows start? end? gb).1.map (fun k =>
        (((filteredRows uid rows start? end?).filter
          (fun r => groupKey gb r.ldate == k)).map (fun r => r.value)).sum) := rfl

lemma sum_map_ite_zero (keys : List String) (x : String) (v : Rat)
    (hnx : x ∉ keys) :
    (keys.map (fun k => if x = k then v else 0)).sum = 0 := by
  induction keys with
  | nil => simp
  | cons a l ih =>
    have hxa : ¬ x = a := fun hc => hnx (hc ▸ List.mem_cons_self a l)
    have hxl : x ∉ l := fun hc => hnx (List.mem_cons_of_mem a hc)
    simp [hxa, ih hxl]

lemma sum_map_ite_single (keys : List String) (x : String) (v : Rat)
    (hnd : keys.Nodup) (hx : x ∈ keys) :
    (keys.map (fun k => if x = k then v else 0)).sum = v := by
  induction keys with
  | nil => exact absurd hx (List.not_mem_nil x)
  | cons a l ih =>
    rcases List.mem_cons.mp hx with hxa | hxl
    · subst hxa
      have hnx : x ∉ l := (List.nodup_cons.mp hnd).1
      simp [sum_map_ite_zero l x v hnx]
    · have hxa : ¬ x = a := by
        intro hc
        exact (List.nodup_cons.mp hnd).1 (hc ▸ hxl)
      simp [hxa, ih (List.nodup_cons.mp hnd).2 hxl]

lemma sum_map_add_distrib (l : List String) (f g : String → Rat) :
    (l.map (fun a => f a + g a)).sum = (l.map f).sum + (l.map g).sum := by
  induction l with
  | nil => simp
  | cons a l ih =>
    simp [ih]
    ring

/-- Summing the per-group sums over a duplicate-free cover of the group keys
recovers the total sum. -/
lemma sum_groups (key : LogRow → String) (l : List LogRow) (keys : List String)
    (hnd : keys.Nodup) (hcov : ∀ r ∈ l, key r ∈ keys) :
    (keys.map (fun k =>
      ((l.filter (fun r => key r == k)).map (fun r => r.value)).sum)).sum =
      (l.map (fun r => r.value)).sum := by
  induction l with
  | nil => simp
  | cons r l ih =>
    have hsplit : ∀ k,
        (((r :: l).filter (fun x => key x == k)).map (fun x => x.value)).sum =
          (if key r = k then r.value else 0) +
            ((l.filter (fun x => key x == k)).map (fun x => x.value)).sum := by
      intro k
      by_cases hk : key r = k
      · simp [List.filter_cons, hk]
      · simp [List.filter_cons, hk]
    calc (keys.map (fun k =>
            (((r :: l).filter (fun x => key x == k)).map (fun x => x.value)).sum)).sum
        = (keys.map (fun k => (if key r = k then r.value else 0) +
            ((l.filter (fun x => key x == k)).map (fun x => x.value)).sum)).sum := by
          rw [List.map_congr_left (fun k _ => hsplit k)]
      _ = (keys.map (fun k => if key r = k then r.value else 0)).sum +
            (keys.map (fun k =>
              ((l.filter (fun x => key x == k)).map (fun x => x.value)).sum)).sum := by
          rw [sum_map_add_distrib]
      _ = r.value + (l.map (fun x => x.value)).sum := by
          rw [sum_map_ite_single keys (key r) r.value hnd (hcov r (List.mem_cons_self r l)),
            ih (fun x hx => hcov x (List.mem_cons_of_mem r hx))]
      _ = ((r :: l).map (fun x => x.value)).sum := by simp

/-- Claim C1 (amended): the label list has exactly one entry per distinct
group key present among the user's rows matching the filter (no duplicates,
and a key appears iff some filtered row produces it), and the returned
values sum to the total of the value column over the FILTERED rows; when no
date filter is applied this equals the unfiltered total over all of the
user's rows. -/
theorem aggregate_query_props (uid : Nat) (rows : List LogRow)
    (start? end? : Option Date) (gb : String) :
    (aggregate_query uid rows start? end? gb).1.Nodup ∧
    (∀ k, k ∈ (aggregate_query uid rows start? end? gb).1 ↔
      k ∈ (filteredRows uid rows start? end?).map (fun r => groupKey gb r.ldate)) ∧
    (aggregate_query uid rows start? end? gb).2.sum =
      ((filteredRows uid rows start? end?).map (fun r => r.value)).sum ∧
    (start? = none ∨ end? = none →
      (aggregate_query uid rows start? end? gb).2.sum =
        ((rows.filter (fun r => r.user_id == uid)).map (fun r => r.value)).sum) := by
  have hperm : List.Perm
      (List.insertionSort (fun a b => strLeB a b = true)
        (((filteredRows uid rows start? end?).map
          (fun r => groupKey gb r.ldate)).dedup))
      (((filteredRows uid rows start? end?).map
        (fun r => groupKey gb r.ldate)).dedup) :=
    List.perm_insertionSort _ _
  have hsum : (aggregate_query uid rows start? end? gb).2.sum =
      ((filteredRows uid rows start? end?).map (fun r => r.value)).sum := by
    rw [aggregate_query_snd, aggregate_query_fst]
    rw [List.Perm.sum_eq (List.Perm.map _ hperm)]
    exact sum_groups (fun r => groupKey gb r.ldate) _ _
      (List.nodup_dedup _)
      (fun r hr => List.mem_dedup.mpr (List.mem_map_of_mem _ hr))
  refine ⟨?_, ?_, hsum, ?_⟩
  · rw [aggregate_query_fst]
    exact (List.Perm.nodup_iff hperm).mpr (List.nodup_dedup _)
  · intro k
    rw [aggregate_query_fst, List.Perm.mem_iff hperm, List.mem_dedup]
  · intro h
    have hfil : filteredRows uid rows start? end? =
        rows.filter (fun r => r.user_id == uid) := by
      unfold filteredRows
      rcases h with h | h
      · subst h
        simp
      · subst h
        rcases start? with _ | sv <;> simp
    rw [hsum, hfil]

/-- Two rows for user 1 on different days; used to exercise the aggregation
theorems on concrete data. -/
def aggCexRows : List LogRow :=
  [⟨1, ⟨2024, 1, 1⟩, 5⟩, ⟨1, ⟨2024, 2, 1⟩, 7⟩]

/-- Claim C1 counterexample: with the date filter restricted to 2024-01-01,
the returned values sum to 5, while the unfiltered total over user 1's rows
is 12 — the returned sum is NOT independent of the start/end filter. -/
theorem aggregate_query_unfiltered_sum_cex :
    (aggregate_query 1 aggCexRows (some ⟨2024, 1, 1⟩) (some ⟨2024, 1, 1⟩) "day").2.sum ≠
      ((aggCexRows.filter (fun r => r.user_id == 1)).map (fun r => r.value)).sum := by
  with_unfolding_all decide

/-- Witness for `aggregate_query_props`: with no filter the returned sum
equals the unfiltered total for the user. -/
theorem aggregate_query_props_witness :
    (aggregate_query 1 aggCexRows none none "day").2.sum =
      ((aggCexRows.filter (fun r => r.user_id == 1)).map (fun r => r.value)).sum :=
  (aggregate_query_props 1 aggCexRows none none "day").2.2.2 (Or.inl rfl)

/- ### Form handling (the POST branches of the log routes) -/

/-- A handler outcome: a flash message plus redirect, or the 500 response
produced when the handler raises an uncaught exception. -/
inductive Resp where
  | redirectWith (target : String) (msg : String) (cat : String)
  | serverError
deriving DecidableEq, Repr

/-- A numeric form field as `float(request.form.get(k) or 0)` sees it:
absent or empty (falsy, coerced to 0), present but unparseable (Python
raises `ValueError`), or a parsed number. -/
inductive NumField where
  | missing
  | malformed
  | val (q : Rat)
deriving DecidableEq, Repr

/-- Same for `int(request.form.get(k) or 0)`. -/
inductive IntField where
  | missing
  | malformed
  | val (n : Int)
deriving DecidableEq, Repr

/-- `int(x or 0)`; `none` models the raised `ValueError`. -/
def intOrZero : IntField → Option Int
  | .missing => some 0
  | .malformed => none
  | .val n => some n

/-- `float(x or 0)`; `none` models the raised `ValueError`. -/
def floatOrZero : NumField → Option Rat
  | .missing => some 0
  | .malformed => none
  | .val q => some q

/-- Python `str.strip()`. -/
def pyStrip (s : String) : String :=
  String.mk (((s.toList.dropWhile Char.isWhitespace).reverse.dropWhile
    Char.isWhitespace).reverse)

/-- A `meal_logs` row. The date is stored verbatim from the form. -/
structure MealRow where
  user_id : Nat
  mdate : String
  meal_type : String
  food : String
  calories : Int
deriving DecidableEq, Repr

/-- The POST branch of `/meals`. -/
def meals_post (st : List MealRow) (uid : Nat) (dt : Option String)
    (meal_type : Option String) (food : Option String)
    (calories : IntField) : List MealRow × Resp :=
  let mt := match meal_type with
    | none => "Breakfast"
    | some s => if s = "" then "Breakfast" else s
  let foodS := pyStrip (food.getD "")
  match intOrZero calories with
  | none => (st, .serverError)
  | some cal =>
    if dt.getD "" = "" ∨ foodS = "" ∨ cal ≤ 0 then
      (st, .redirectWith "meals" "Please provide a valid meal entry." "error")
    else
      (st ++ [⟨uid, dt.getD "", mt, foodS, cal⟩],
        .redirectWith "meals" "Meal log added." "success")

/-- A `fitness_logs` row. -/
structure FitnessRow where
  user_id : Nat
  fdate : String
  activity_type : String
  duration_min : Int
  calories_burned : Int
deriving DecidableEq, Repr

/-- The POST branch of `/fitness`. -/
def fitness_post (st : List FitnessRow) (uid : Nat) (dt : Option String)
    (activity : Option String) (duration burned : IntField) :
    List FitnessRow × Resp :=
  let act := pyStrip (activity.getD "")
  match intOrZero duration with
  | none => (st, .serverError)
  | some dur =>
    match intOrZero burned with
    | none => (st, .serverError)
    | some b =>
      if dt.getD "" = "" ∨ act = "" ∨ dur ≤ 0 ∨ b < 0 then
        (st, .redirectWith "fitness" "Please provide a valid fitness entry." "error")
      else
        (st ++ [⟨uid, dt.getD "", act, dur, b⟩],
          .redirectWith "fitness" "Fitness log added." "success")

/-- A sleep datetime field: missing/empty, rejected by `to_dt`, or parsed
to an absolute minute count (`to_dt` parses minute precision). -/
inductive DtField where
  | missing
  | malformed
  | val (minutes : Nat)
deriving DecidableEq, Repr

/-- A `sleep_logs` row as the sleep handler writes it (times in absolute
minutes). -/
structure SleepRow where
  user_id : Nat
  sleep_start : Nat
  sleep_end : Nat
  duration_hours : Rat
deriving DecidableEq, Repr

/-- `if e_dt < s_dt: e_dt = e_dt + timedelta(days=1)` on minute counts. -/
def adjustedEnd (sm em : Nat) : Nat :=
  if em < sm then em + 1440 else em

/-- `round((e_dt - s_dt).total_seconds() / 3600.0, 2)` on minute counts. -/
def sleepDuration (sm em : Nat) : Rat :=
  round2 (((adjustedEnd sm em : Rat) - (sm : Rat)) / 60)

/-- The POST branch of `/sleep`. -/
def sleep_post (st : List SleepRow) (uid : Nat) (s e : DtField) :
    List SleepRow × Resp :=
  match s, e with
  | .missing, _ =>
    (st, .redirectWith "sleep" "Please provide both sleep start and end." "error")
  | _, .missing =>
    (st, .redirectWith "sleep" "Please provide both sleep start and end." "error")
  | .malformed, _ => (st, .redirectWith "sleep" "Invalid datetime format." "error")
  | _, .malformed => (st, .redirectWith "sleep" "Invalid datetime format." "error")
  | .val sm, .val em =>
    if sleepDuration sm em ≤ 0 then
      (st, .redirectWith "sleep" "Invalid datetime format." "error")
    else
      (st ++ [⟨uid, sm, adjustedEnd sm em, sleepDuration sm em⟩],
        .redirectWith "sleep" "Sleep log added." "success")

/-- A `weight_logs` row. -/
structure WeightRow where
  user_id : Nat
  wdate : String
  weight_kg : Rat
  height_cm : Rat
  bmi : Rat
deriving DecidableEq, Repr

/-- The POST branch of `/weight`:
`bmi = round(weight_kg / ((height_cm / 100.0) ** 2), 2)`. -/
def weight_post (st : List WeightRow) (uid : Nat) (dt : Option String)
    (wf hf : NumField) : List WeightRow × Resp :=
  match floatOrZero wf with
  | none => (st, .serverError)
  | some w =>
    match floatOrZero hf with
    | none => (st, .serverError)
    | some h =>
      if dt.getD "" = "" ∨ w ≤ 0 ∨ h ≤ 0 then
        (st, .redirectWith "weight" "Please provide valid weight/height." "error")
      else
        (st ++ [⟨uid, dt.getD "", w, h, round2 (w / ((h / 100) * (h / 100)))⟩],
          .redirectWith "weight" "Weight log added." "success")

/- ### Dashboard -/

/-- The `goals` row targets (each nullable, as in the schema). -/
structure Goals where
  target_weight_kg : Option Rat
  daily_calorie_intake_target : Option Int
  daily_exercise_minutes_target : Option Int
deriving DecidableEq, Repr

/-- The fixed advisory strings the dashboard emits, as tags. -/
inductive Advice where
  | weight_deficit_cardio
  | weight_surplus_strength
  | intake_exceeded
  | exercise_needed (minutes : Int)
deriving DecidableEq, Repr

/-- The dashboard `diffs` dict. -/
structure Diffs where
  weight : Option Rat
  calorie : Option Int
  exercise : Option Int
deriving DecidableEq, Repr

/-- A `sleep_logs` row as the dashboard query reads it: the date part of
`sleep_end` (what SQLite `DATE(sleep_end)` extracts) and the stored
duration. -/
structure SleepDbRow where
  user_id : Nat
  end_date : Date
  duration_hours : Rat
deriving DecidableEq, Repr

/-- `SELECT COALESCE(SUM(calories),0) FROM meal_logs WHERE user_id=? AND date=?`
with the date bound `fmt_day today`. -/
def total_in_today (uid : Nat) (meals : List MealRow) (today : Date) : Int :=
  ((meals.filter (fun r => r.user_id == uid && r.mdate == fmt_day today)).map
    (fun r => r.calories)).sum

/-- The fitness rows of `uid` dated today. -/
def fitness_today (uid : Nat) (fits : List FitnessRow) (today : Date) :
    List FitnessRow :=
  fits.filter (fun r => r.user_id == uid && r.fdate == fmt_day today)

def total_out_today (uid : Nat) (fits : List FitnessRow) (today : Date) : Int :=
  ((fitness_today uid fits today).map (fun r => r.calories_burned)).sum

def total_mins_today (uid : Nat) (fits : List FitnessRow) (today : Date) : Int :=
  ((fitness_today uid fits today).map (fun r => r.duration_min)).sum

/-- `SELECT COALESCE(AVG(duration_hours),0) FROM sleep_logs WHERE user_id=?
AND DATE(sleep_end) >= DATE('now','-6 day')`, then `round(x or 0, 2)`.
Note the query has no upper date bound. -/
def avg_sleep_7d (uid : Nat) (sleeps : List SleepDbRow) (today : Date) : Rat :=
  let srows := sleeps.filter (fun r =>
    r.user_id == uid && strLeB (fmt_day (today.subDays 6)) (fmt_day r.end_date))
  round2 (if srows.isEmpty then 0
    else (srows.map (fun r => r.duration_hours)).sum / (srows.length : Rat))

/-- `SELECT ... FROM weight_logs WHERE user_id=? ORDER BY date DESC, id DESC
LIMIT 1` over rows listed in insertion (id) order. -/
def latestWeightRow (rows : List WeightRow) : Option WeightRow :=
  rows.foldl (fun acc r =>
    match acc with
    | none => some r
    | some a => if strLeB a.wdate r.wdate then some r else some a) none

/-- The weight-goal block of the dashboard: the rounded delta and the
advisory keyed on its sign. -/
def weightDelta (goals : Option Goals) (wrow : Option WeightRow) :
    Option Rat × List Advice :=
  match goals, wrow with
  | some g, some wr =>
    match g.target_weight_kg with
    | some t =>
      let dv := round2 (wr.weight_kg - t)
      (some dv,
        if 0 < dv then [Advice.weight_deficit_cardio]
        else if dv < 0 then [Advice.weight_surplus_strength]
        else [])
    | none => (none, [])
  | _, _ => (none, [])

/-- The calorie-goal block of the dashboard. -/
def calorieDelta (goals : Option Goals) (total_in : Int) :
    Option Int × List Advice :=
  match goals with
  | some g =>
    match g.daily_calorie_intake_target with
    | some c =>
      (some (c - total_in), if c - total_in < 0 then [Advice.intake_exceeded] else [])
    | none => (none, [])
  | none => (none, [])

/-- The exercise-goal block of the dashboard. -/
def exerciseDelta (goals : Option Goals) (total_mins : Int) :
    Option Int × List Advice :=
  match goals with
  | some g =>
    match g.daily_exercise_minutes_target with
    | some m =>
      (some (m - total_mins),
        if 0 < m - total_mins then [Advice.exercise_needed (m - total_mins)] else [])
    | none => (none, [])
  | none => (none, [])

/-- Everything the dashboard view computes. -/
structure DashData where
  total_in : Int
  total_out : Int
  total_mins : Int
  avg_sleep : Rat
  last_bmi : Option Rat
  diffs : Diffs
  suggestions : List Advice
deriving DecidableEq, Repr

/-- The `dashboard` view of app.py as a pure function of the store contents
and the current date. -/
def dashboard (uid : Nat) (meals : List MealRow) (fits : List FitnessRow)
    (sleeps : List SleepDbRow) (weights : List WeightRow)
    (goals : Option Goals) (today : Date) : DashData :=
  let tin := total_in_today uid meals today
  let tmin := total_mins_today uid fits today
  let wrow := latestWeightRow (weights.filter (fun r => r.user_id == uid))
  let wd := weightDelta goals wrow
  let cd := calorieDelta goals tin
  let ed := exerciseDelta goals tmin
  ⟨tin, total_out_today uid fits today, tmin,
   avg_sleep_7d uid sleeps today,
   Option.map (fun r => r.bmi) wrow,
   ⟨wd.1, cd.1, ed.1⟩,
   wd.2 ++ cd.2 ++ ed.2⟩

/- ### Claims about the handlers and the dashboard -/

/-- Claim C2 counterexample: a meals POST whose date field holds the
malformed date string "banana-date" is NOT rejected: the handler flashes
success and writes a row containing the bad date verbatim, so invalid dates
are neither rejected nor kept out of the store. -/
theorem meals_bad_date_accepted_cex :
    meals_post [] 1 (some "banana-date") (some "Lunch") (some "pizza") (.val 100) =
      ([⟨1, "banana-date", "Lunch", "pizza", 100⟩],
        .redirectWith "meals" "Meal log added." "success") := by
  with_unfolding_all decide

/-- Claim C2 (amended): a POST to a log form with a missing required field
or a non-positive parsed number — and, for the sleep form, a missing,
unparseable or non-positive-duration datetime pair — is rejected with a
user-facing error flash and a redirect back to the originating form, and
the store is left unchanged. (Malformed date strings in the meals, fitness
and weight forms are not validated and are stored as-is; malformed numeric
strings raise an unhandled error, which also leaves the store unchanged.) -/
theorem invalid_log_post_rejected :
    (∀ (st : List MealRow) (uid : Nat) (dt mt food : Option String)
        (calf : IntField) (c : Int), intOrZero calf = some c →
      (dt.getD "" = "" ∨ pyStrip (food.getD "") = "" ∨ c ≤ 0) →
      meals_post st uid dt mt food calf =
        (st, .redirectWith "meals" "Please provide a valid meal entry." "error")) ∧
    (∀ (st : List FitnessRow) (uid : Nat) (dt act : Option String)
        (durf burnf : IntField) (dur b : Int),
      intOrZero durf = some dur → intOrZero burnf = some b →
      (dt.getD "" = "" ∨ pyStrip (act.getD "") = "" ∨ dur ≤ 0 ∨ b < 0) →
      fitness_post st uid dt act durf burnf =
        (st, .redirectWith "fitness" "Please provide a valid fitness entry." "error")) ∧
    (∀ (st : List SleepRow) (uid : Nat) (sm em : Nat), sleepDuration sm em ≤ 0 →
      sleep_post st uid (.val sm) (.val em) =
        (st, .redirectWith "sleep" "Invalid datetime format." "error")) ∧
    (∀ (st : List SleepRow) (uid : Nat) (s e : DtField),
      (s = DtField.missing ∨ e = DtField.missing) →
      sleep_post st uid s e =
        (st, .redirectWith "sleep" "Please provide both sleep start and end." "error")) ∧
    (∀ (st : List SleepRow) (uid : Nat) (s e : DtField),
      s ≠ DtField.missing → e ≠ DtField.missing →
      (s = DtField.malformed ∨ e = DtField.malformed) →
      sleep_post st uid s e =
        (st, .redirectWith "sleep" "Invalid datetime format." "error")) ∧
    (∀ (st : List WeightRow) (uid : Nat) (dt : Option String)
        (wf hf : NumField) (w h : Rat),
      floatOrZero wf = some w → floatOrZero hf = some h →
      (dt.getD "" = "" ∨ w ≤ 0 ∨ h ≤ 0) →
      weight_post st uid dt wf hf =
        (st, .redirectWith "weight" "Please provide valid weight/height." "error")) := by
  refine ⟨?_, ?_, ?_, ?_, ?_, ?_⟩
  · intro st uid dt mt food calf c hc hinv
    simp only [meals_post, hc]
    rw [if_pos hinv]
  · intro st uid dt act durf burnf dur b hdur hburn hinv
    simp only [fitness_post, hdur, hburn]
    rw [if_pos hinv]
  · intro st uid sm em h
    simp only [sleep_post]
    rw [if_pos h]
  · intro st uid s e h
    rcases h with h | h
    · subst h
      cases e <;> rfl
    · subst h
      cases s <;> rfl
  · intro st uid s e hs he h
    cases s <;> cases e <;> simp_all [sleep_post]
  · intro st uid dt wf hf w h hw hh hinv
    simp only [weight_post, hw, hh]
    rw [if_pos hinv]

/-- Witness for `invalid_log_post_rejected`: a meals POST without a date, a
fitness POST with zero duration, a zero-duration sleep POST, a sleep POST
with a missing start, a sleep POST with an unparseable start, and a weight
POST with a negative weight are all rejected with the store unchanged. -/
theorem invalid_log_post_rejected_witness :
    meals_post [] 1 none (some "Lunch") (some "pizza") (.val 100) =
      ([], .redirectWith "meals" "Please provide a valid meal entry." "error") ∧
    fitness_post [] 1 (some "2024-01-01") (some "run") (.val 0) (.val 100) =
      ([], .redirectWith "fitness" "Please provide a valid fitness entry." "error") ∧
    sleep_post [] 1 (.val 600) (.val 600) =
      ([], .redirectWith "sleep" "Invalid datetime format." "error") ∧
    sleep_post [] 1 .missing (.val 600) =
      ([], .redirectWith "sleep" "Please provide both sleep start and end." "error") ∧
    sleep_post [] 1 .malformed (.val 600) =
      ([], .redirectWith "sleep" "Invalid datetime format." "error") ∧
    weight_post [] 1 (some "2024-01-01") (.val (-5)) (.val 170) =
      ([], .redirectWith "weight" "Please provide valid weight/height." "error") :=
  ⟨invalid_log_post_rejected.1 [] 1 none (some "Lunch") (some "pizza") (.val 100) 100
      rfl (Or.inl rfl),
   invalid_log_post_rejected.2.1 [] 1 (some "2024-01-01") (some "run")
      (.val 0) (.val 100) 0 100 rfl rfl
      (Or.inr (Or.inr (Or.inl (by decide)))),
   invalid_log_post_rejected.2.2.1 [] 1 600 600 (by with_unfolding_all decide),
   invalid_log_post_rejected.2.2.2.1 [] 1 .missing (.val 600) (Or.inl rfl),
   invalid_log_post_rejected.2.2.2.2.1 [] 1 .malformed (.val 600)
      (by decide) (by decide) (Or.inl rfl),
   invalid_log_post_rejected.2.2.2.2.2 [] 1 (some "2024-01-01")
      (.val (-5)) (.val 170) (-5) 170 rfl rfl
      (Or.inr (Or.inl (by with_unfolding_all decide)))⟩

/-- Claim C9: sleep submissions that parse get one day added to the end
when it is earlier than the start; an accepted submission stores
duration_hours = round((end − start) in hours, 2) computed from the
adjusted end, which is strictly positive; a non-positive computed duration
is rejected with the store unchanged. -/
theorem sleep_post_duration_round (st : List SleepRow) (uid : Nat) (sm em : Nat) :
    (em < sm → adjustedEnd sm em = em + 1440) ∧
    (sleepDuration sm em ≤ 0 →
      sleep_post st uid (.val sm) (.val em) =
        (st, .redirectWith "sleep" "Invalid datetime format." "error")) ∧
    (0 < sleepDuration sm em →
      sleep_post st uid (.val sm) (.val em) =
        (st ++ [⟨uid, sm, adjustedEnd sm em, sleepDuration sm em⟩],
          .redirectWith "sleep" "Sleep log added." "success")) := by
  refine ⟨fun h => if_pos h, fun h => ?_, fun h => ?_⟩
  · simp only [sleep_post]
    rw [if_pos h]
  · simp only [sleep_post]
    rw [if_neg (not_le.mpr h)]

/-- Witness for `sleep_post_duration_round`: sleeping 23:00 to 07:00 wraps
midnight, stores an 8-hour duration, and is accepted. -/
theorem sleep_post_duration_round_witness :
    adjustedEnd 1380 420 = 420 + 1440 ∧
    sleep_post [] 1 (.val 1380) (.val 420) =
      ([⟨1, 1380, adjustedEnd 1380 420, sleepDuration 1380 420⟩],
        .redirectWith "sleep" "Sleep log added." "success") ∧
    sleepDuration 1380 420 = 8 :=
  ⟨(sleep_post_duration_round [] 1 1380 420).1 (by decide),
   (sleep_post_duration_round [] 1 1380 420).2.2 (by with_unfolding_all decide),
   by with_unfolding_all decide⟩

/-- Claim C8: a valid weight submission stores
BMI = round(weight_kg / (height_cm/100)^2, 2); in particular 70 kg at
175 cm stores BMI 22.86 (see the witness). -/
theorem weight_post_stores_bmi (st : List WeightRow) (uid : Nat)
    (dts : String) (w h : Rat) (hd : dts ≠ "") (hw : 0 < w) (hh : 0 < h) :
    weight_post st uid (some dts) (.val w) (.val h) =
      (st ++ [⟨uid, dts, w, h, round2 (w / ((h / 100) * (h / 100)))⟩],
        .redirectWith "weight" "Weight log added." "success") := by
  have hcond : ¬ (dts = "" ∨ w ≤ 0 ∨ h ≤ 0) := by
    rintro (h1 | h1 | h1)
    · exact hd h1
    · exact absurd h1 (not_le.mpr hw)
    · exact absurd h1 (not_le.mpr hh)
  simp only [weight_post, floatOrZero, Option.getD_some]
  rw [if_neg hcond]

/-- Witness for `weight_post_stores_bmi`: 70 kg, 175 cm gives BMI 22.86. -/
theorem weight_post_stores_bmi_witness :
    weight_post [] 1 (some "2024-01-02") (.val 70) (.val 175) =
      ([⟨1, "2024-01-02", 70, 175, round2 (70 / ((175 / 100) * (175 / 100)))⟩],
        .redirectWith "weight" "Weight log added." "success") ∧
    round2 ((70 : Rat) / ((175 / 100) * (175 / 100))) = 2286 / 100 :=
  ⟨weight_post_stores_bmi [] 1 "2024-01-02" 70 175 (by decide)
      (by with_unfolding_all decide) (by with_unfolding_all decide),
   by with_unfolding_all rfl⟩

/-- Claim C6: with all three goal targets set and a latest weight row
present, the dashboard computes weight delta = round(latest − target, 2),
calorie delta = target − today's summed intake, exercise delta = target −
today's summed minutes, and emits the "exceeded" advisory whenever the
calorie delta is negative (the 2000-target / 2300-intake instance is the
witness). -/
theorem dashboard_goal_deltas (uid : Nat) (meals : List MealRow)
    (fits : List FitnessRow) (sleeps : List SleepDbRow)
    (weights : List WeightRow) (g : Goals) (today : Date)
    (tw : Rat) (c m : Int) (wr : WeightRow)
    (hgw : g.target_weight_kg = some tw)
    (hgc : g.daily_calorie_intake_target = some c)
    (hgm : g.daily_exercise_minutes_target = some m)
    (hw : latestWeightRow (weights.filter (fun r => r.user_id == uid)) = some wr) :
    (dashboard uid meals fits sleeps weights (some g) today).diffs =
      ⟨some (round2 (wr.weight_kg - tw)),
       some (c - total_in_today uid meals today),
       some (m - total_mins_today uid fits today)⟩ ∧
    (c - total_in_today uid meals today < 0 →
      Advice.intake_exceeded ∈
        (dashboard uid meals fits sleeps weights (some g) today).suggestions) := by
  constructor
  · simp only [dashboard, hw, weightDelta, calorieDelta, exerciseDelta, hgw, hgc, hgm]
  · intro hlt
    simp only [dashboard, hw, weightDelta, calorieDelta, exerciseDelta, hgw, hgc, hgm]
    rw [if_pos hlt]
    simp

/-- Demo store contents for the dashboard witness (the spec's concrete
scenario: calorie target 2000, today's intake 2300). -/
def demoWRow : WeightRow := ⟨1, "2024-05-01", 80, 175, 2612 / 100⟩

def demoWeights : List WeightRow := [demoWRow]

def demoMeals : List MealRow := [⟨1, "2024-05-10", "Lunch", "big pizza", 2300⟩]

def demoGoals : Goals := ⟨some 70, some 2000, some 30⟩

set_option maxRecDepth 4000 in
/-- Witness for `dashboard_goal_deltas`: calorie target 2000 with intake
2300 yields calorie delta −300 and the "exceeded" advisory. -/
theorem dashboard_goal_deltas_witness :
    (dashboard 1 demoMeals [] [] demoWeights (some demoGoals) ⟨2024, 5, 10⟩).diffs =
      ⟨some (round2 (demoWRow.weight_kg - 70)),
       some (2000 - total_in_today 1 demoMeals ⟨2024, 5, 10⟩),
       some (30 - total_mins_today 1 [] ⟨2024, 5, 10⟩)⟩ ∧
    Advice.intake_exceeded ∈
      (dashboard 1 demoMeals [] [] demoWeights (some demoGoals) ⟨2024, 5, 10⟩).suggestions ∧
    (2000 : Int) - total_in_today 1 demoMeals ⟨2024, 5, 10⟩ = -300 := by
  have hmain := dashboard_goal_deltas 1 demoMeals [] [] demoWeights demoGoals
    ⟨2024, 5, 10⟩ 70 2000 30 demoWRow rfl rfl rfl (by with_unfolding_all decide)
  exact ⟨hmain.1, hmain.2 (by with_unfolding_all decide), by with_unfolding_all decide⟩

/-- A sleep record whose end date lies in the future relative to the
dashboard's current date. -/
def futureSleepRow : SleepDbRow := ⟨1, ⟨2024, 5, 20⟩, 8⟩

/-- Claim C7 (code-bug evidence): the dashboard's sleep-average query has
only a lower date bound (`DATE(sleep_end) >= DATE('now','-6 day')`), so a
record whose sleep_end date lies strictly AFTER today — outside the 7-day
window ending today that the claim (and the code's own "avg sleep last 7
days" comment) describes — is included in the average. On 2024-05-10, a
single record dated 2024-05-20 produces an average of 8 instead of 0. -/
theorem dashboard_avg_sleep_includes_future :
    (dashboard 1 [] [] [futureSleepRow] [] none ⟨2024, 5, 10⟩).avg_sleep = 8 ∧
    Date.lt ⟨2024, 5, 10⟩ futureSleepRow.end_date := by
  with_unfolding_all decide

end HealthTracker
